import Mathlib

/-!
Shallow embedding of the tutor compose/dev command layer
(src/tutor/commands/compose.py and src/tutor/commands/dev.py).

The filesystem is abstracted as a predicate on paths (fs : String → Bool,
true iff the path exists), and the external orchestration-tool invocation
(utils.docker_compose, the spec's CommandInvoker) is abstracted as a
function from an argument vector to an exit code, following section 4.2 of
the spec: it returns the exit code verbatim and does not raise.
-/

namespace Tutor

/-- Model of os.path.join for two segments: if the second segment is an
absolute path (starts with a slash), it replaces the first, otherwise the
two are joined with a slash separator. -/
def os_path_join (a b : String) : String :=
  if b.data.head? = some '/' then b else a ++ "/" ++ b

/-- Modelled from the spec: PathResolver (section 4.1) base directory of
the rendered environment, root joined with the fixed env segment; the root
is taken to be an absolute path. Mirrors tutor_env.base_dir, which is not
under src/. -/
def base_dir (root : String) : String := os_path_join root "env"

/-- Modelled from the spec: PathResolver (section 4.1) joins the root
directory with relative logical path segments, performing no I/O. Mirrors
tutor_env.pathjoin, which is not under src/. -/
def pathjoin (root : String) (parts : List String) : String :=
  parts.foldl os_path_join (base_dir root)

/-- Modelled from the spec: PathResolver (section 4.1) resolves data
directories under the root. Mirrors tutor_env.data_path, which is not
under src/: the root joined with the fixed data segment and the parts. -/
def data_path (root : String) (parts : List String) : String :=
  parts.foldl os_path_join (os_path_join root "data")

/-- Modelled from the spec: PathResolver (section 4.1); tutor_env.root_dir
is not under src/ and returns the absolute root directory. The root is
taken to be already absolute. -/
def root_dir (root : String) : String := root

/-- Configuration snapshot (spec section 3): immutable mapping, consumed
read-only. Only the keys consumed by the embedded code are modelled.
BACKUP_ENABLED is optional because the code tests membership before
reading it. -/
structure Config where
  DEV_PROJECT_NAME : String := ""
  RUN_LMS : Bool := false
  RUN_CMS : Bool := false
  LMS_HOST : String := ""
  MYSQL_ROOT_PASSWORD : String := ""
  BACKUP_ENABLED : Option Bool := none
  BACKUP_S3_ACCESS_KEY : String := ""
  BACKUP_S3_SECRET_KEY : String := ""
  BACKUP_S3_BUCKET_NAME : String := ""
deriving Repr, DecidableEq

/-- ComposeJobRunner state (compose.py lines 21 to 26): a project name and
the two file-set roles. -/
structure ComposeJobRunner where
  root : String
  project_name : String
  docker_compose_files : List String
  docker_compose_job_files : List String
deriving Repr, DecidableEq

/-- The file-inclusion loop of ComposeJobRunner.docker_compose
(compose.py lines 32 to 35): for each file path, in order, append
a -f flag and the path when the file exists. -/
def compose_file_args (fs : String → Bool) (files : List String) : List String :=
  files.foldl (fun acc p => if fs p then acc ++ ["-f", p] else acc) []

/-- The full argument vector delivered to the external orchestration tool
by ComposeJobRunner.docker_compose (compose.py lines 32 to 38). -/
def docker_compose_args (fs : String → Bool) (r : ComposeJobRunner)
    (command : List String) : List String :=
  compose_file_args fs r.docker_compose_files
    ++ ["--project-name", r.project_name] ++ command

/-- ComposeJobRunner.docker_compose (compose.py lines 28 to 38): delegates
the assembled vector to the external invoker and returns its exit code. -/
def docker_compose (invoker : List String → Int) (fs : String → Bool)
    (r : ComposeJobRunner) (command : List String) : Int :=
  invoker (docker_compose_args fs r command)

/-- The job-file inclusion loop of ComposeJobRunner.run_job (compose.py
lines 45 to 49): each job file path is joined onto the environment root and
included, with a -f flag, when the joined path exists. -/
def run_job_file_args (fs : String → Bool) (r : ComposeJobRunner) : List String :=
  r.docker_compose_job_files.foldl
    (fun acc p =>
      let path := pathjoin r.root [p]
      if fs path then acc ++ ["-f", path] else acc) []

/-- The command tokens that ComposeJobRunner.run_job (compose.py lines 40
to 61) hands to docker_compose: job-file flags, run, rm, an optional -T
when no terminal is attached, the job service name and the wrapped shell
command. -/
def run_job_command (fs : String → Bool) (tty : Bool) (r : ComposeJobRunner)
    (service command : String) : List String :=
  let run_command := run_job_file_args fs r
  let run_command := run_command ++ ["run", "--rm"]
  let run_command := if !tty then run_command ++ ["-T"] else run_command
  run_command ++ [service ++ "-job", "sh", "-e", "-c", command]

/-- The full argument vector delivered to the external orchestration tool
when run_job executes: run_job delegates its tokens to docker_compose
(compose.py lines 54 to 61). -/
def run_job_invocation (fs : String → Bool) (tty : Bool) (r : ComposeJobRunner)
    (service command : String) : List String :=
  docker_compose_args fs r (run_job_command fs tty r service command)

/-- ComposeJobRunner.run_job (compose.py lines 40 to 61): returns the exit
code of the delegated invocation. -/
def run_job (invoker : List String → Int) (fs : String → Bool) (tty : Bool)
    (r : ComposeJobRunner) (service command : String) : Int :=
  docker_compose invoker fs r (run_job_command fs tty r service command)

/-- DevJobRunner.__init__ (dev.py lines 13 to 31): project name from the
DEV_PROJECT_NAME key, and the two file sets appended in source order onto
the (empty) base lists. -/
def DevJobRunner (root : String) (config : Config) : ComposeJobRunner :=
  { root := root
    project_name := config.DEV_PROJECT_NAME
    docker_compose_files :=
      [ pathjoin root ["local", "docker-compose.yml"],
        pathjoin root ["dev", "docker-compose.yml"],
        pathjoin root ["local", "docker-compose.override.yml"],
        pathjoin root ["dev", "docker-compose.override.yml"] ]
    docker_compose_job_files :=
      [ pathjoin root ["local", "docker-compose.jobs.yml"],
        pathjoin root ["dev", "docker-compose.jobs.yml"],
        pathjoin root ["local", "docker-compose.jobs.override.yml"],
        pathjoin root ["dev", "docker-compose.jobs.override.yml"] ] }

/-- Modelled from the spec: BindMountResolver.resolve (section 4.5) joins
the root with a fixed volumes segment and the logical name. Mirrors
bindmounts.get_path, which is not under src/. -/
def bindmounts_get_path (root name : String) : String :=
  os_path_join (os_path_join root "volumes") name

/-- Modelled from the spec: BindMountResolver.parse (section 4.5) scans a
raw argument list for volume-flag occurrences and separates the volume
values from the passthrough arguments. Mirrors bindmounts.parse_volumes,
which is not under src/: a token of the form --volume=value yields value,
a --volume or -v token takes the following token as its value, and every
other token passes through unchanged. -/
def parse_volumes : List String → List String × List String
  | [] => ([], [])
  | a :: rest =>
    if a = "--volume" ∨ a = "-v" then
      match rest with
      | [] => ([], [a])
      | v :: rest2 =>
        let r := parse_volumes rest2
        (v :: r.1, r.2)
    else if a.startsWith "--volume=" then
      let r := parse_volumes rest
      (a.drop 9 :: r.1, r.2)
    else
      let r := parse_volumes rest
      (r.1, a :: r.2)

/-- The failure raised by dc_command when a bare bind-mount volume does
not exist on the host (compose.py lines 293 to 299): the error names the
missing host path and the remediation command, which is the name of the
bindmount command. -/
inductive TutorError where
  | missingBindMount (host_path : String) (remediation_command : String)
deriving Repr, DecidableEq

/-- The volume-argument loop of dc_command (compose.py lines 288 to 301):
a volume token without a host:container separator is a bind-mounted
volume from the volumes folder; it is resolved to its host path, which
must exist, otherwise the command fails fast with the missing-bind-mount
error; each volume becomes a --volume argument. -/
def dc_volume_args (fs : String → Bool) (root : String) :
    List String → Except TutorError (List String)
  | [] => .ok []
  | v :: rest =>
    if v.data.contains ':' then
      (dc_volume_args fs root rest).map (fun tail => ["--volume", v] ++ tail)
    else
      let host_bind_path := bindmounts_get_path root v
      if fs host_bind_path then
        (dc_volume_args fs root rest).map
          (fun tail => ["--volume", host_bind_path ++ ":" ++ v] ++ tail)
      else
        .error (.missingBindMount host_bind_path "bindmount")

/-- dc_command (compose.py lines 285 to 302): parses volumes out of the
raw arguments, resolves bare bind-mount volumes (failing fast when one
does not exist on the host), and otherwise delivers the subcommand, the
volume arguments and the passthrough arguments through docker_compose;
the ok value is the full argument vector delivered to the external tool,
and an error value means the tool was never invoked. -/
def dc_command (fs : String → Bool) (root : String) (r : ComposeJobRunner)
    (command : String) (args : List String) : Except TutorError (List String) :=
  let parsed := parse_volumes args
  (dc_volume_args fs root parsed.1).map
    (fun volume_args => docker_compose_args fs r ([command] ++ volume_args ++ parsed.2))

/-- The command tokens the restart command hands to docker_compose
(compose.py lines 120 to 134). -/
def restart_command (config : Config) (services : List String) : List String :=
  let command := ["restart"]
  if "all" ∈ services then
    command
  else
    services.foldl
      (fun cmd service =>
        if service = "openedx" then
          let cmd := if config.RUN_LMS then cmd ++ ["lms", "lms-worker"] else cmd
          if config.RUN_CMS then cmd ++ ["cms", "cms-worker"] else cmd
        else cmd ++ [service])
      command

/-- Model of os.path.basename: the longest suffix of the path that
contains no slash. -/
def os_path_basename (s : String) : String :=
  ⟨s.data.rtakeWhile (fun c => c != '/')⟩

/-- The outcome of the remote upload attempted by the backup command
(compose.py lines 369 to 381): success, the archive file missing locally,
or the credentials rejected. -/
inductive UploadResult where
  | success
  | fileNotFound
  | noCredentials
deriving Repr, DecidableEq

/-- The external collaborators of the backup command: the exit code the
orchestration tool returns for each delegated invocation, the outcome of
the remote upload when one is attempted, and the error string of the
best-effort dump cleanup when it fails. -/
structure BackupEnv where
  invoker : List String → Int
  upload : UploadResult
  cleanup_error : Option String := none

/-- Everything observable about one run of the backup command: the
delegated invocations and their exit codes, the informational messages
emitted, the archive name and its top-level entry names, whether a remote
upload was attempted, and whether the local archive was deleted
afterwards. -/
structure BackupOutcome where
  invocations : List (List String)
  exit_codes : List Int
  logs : List String
  file_name : String
  archive_entries : List String
  upload_attempted : Bool
  archive_deleted : Bool
deriving Repr, DecidableEq

/-- The mongodb dump command of the backup pipeline (compose.py line 312). -/
def backup_mongodb_command (now : String) : List String :=
  ["exec", "mongodb", "mongodump", "--out=/data/db/dump_" ++ now ++ ".mongodb"]

/-- The mysql dump command of the backup pipeline (compose.py lines 316 to
324), parameterized by the root credential from configuration. -/
def backup_mysql_command (config : Config) (now : String) : List String :=
  ["exec", "mysql", "mysqldump", "--all-databases", "-u", "root",
    "--password=" ++ config.MYSQL_ROOT_PASSWORD,
    "--result-file=/var/lib/mysql/dump_" ++ now ++ ".sql"]

/-- The source items archived by the backup pipeline (compose.py lines 328
to 341): the two dump files, three data directories, and the
configuration file. -/
def backup_dirFiles (root now : String) : List String :=
  [ data_path root ["mongodb/dump_" ++ now ++ ".mongodb"],
    data_path root ["mysql/dump_" ++ now ++ ".sql"],
    data_path root ["cms"],
    data_path root ["lms"],
    data_path root ["openedx-media"],
    root_dir root ++ "/config.yml" ]

/-- The archive name of the backup pipeline (compose.py line 342). -/
def backup_file_name (config : Config) (now : String) : String :=
  config.LMS_HOST ++ "_" ++ now ++ ".tar.gz"

/-- The top-level entry names of the backup archive (compose.py lines 347
to 349): each source item is added under its base name. -/
def backup_archive_entries (root now : String) : List String :=
  (backup_dirFiles root now).map os_path_basename

/-- The informational messages of the best-effort dump-cleanup stage
(compose.py lines 353 to 358): a message only when removal raised an OS
error, and the pipeline continues either way. -/
def backup_cleanup_logs (cleanup_error : Option String) : List String :=
  match cleanup_error with
  | some e => ["Delete mongodb or mysql dump files " ++ e ++ " are failed"]
  | none => []

/-- The upload stage of the backup command (compose.py lines 360 to 381):
returns whether an upload was attempted, whether the local archive was
deleted afterwards, and the messages emitted. Only when BACKUP_ENABLED is
present in the configuration and true is the upload attempted; on success
the local archive is removed; a missing archive or rejected credentials
are logged with their specific cause and the archive is kept. -/
def backup_upload (enabled : Option Bool) (upload : UploadResult)
    (file_name : String) : Bool × Bool × List String :=
  match enabled with
  | some true =>
    match upload with
    | .success =>
      (true, true, ["Uploaded backup file " ++ file_name ++ " to S3 successfully"])
    | .fileNotFound =>
      (true, false, ["The backup file " ++ file_name ++ " was not found"])
    | .noCredentials =>
      (true, false, ["The S3 credential is not available"])
  | _ => (false, false, [])

/-- The backup command (compose.py lines 305 to 381): exports mongodb and
mysql (the exit codes of the delegated invocations are bound but never
examined), emits a success message after each export, archives the source
items under their base names, best-effort deletes the dump files, and
runs the upload stage. -/
def backup (fs : String → Bool) (r : ComposeJobRunner) (config : Config)
    (root now : String) (env : BackupEnv) : BackupOutcome :=
  let mongodb_invocation := docker_compose_args fs r (backup_mongodb_command now)
  let mongodb_exit := env.invoker mongodb_invocation
  let mysql_invocation := docker_compose_args fs r (backup_mysql_command config now)
  let mysql_exit := env.invoker mysql_invocation
  let file_name := backup_file_name config now
  let up := backup_upload config.BACKUP_ENABLED env.upload file_name
  { invocations := [mongodb_invocation, mysql_invocation]
    exit_codes := [mongodb_exit, mysql_exit]
    logs := ["Exported mongo databases successfully",
        "Exported mysql databases successfully",
        "Created backup file " ++ file_name ++ " successfully"]
      ++ backup_cleanup_logs env.cleanup_error ++ up.2.2
    file_name := file_name
    archive_entries := backup_archive_entries root now
    upload_attempted := up.1
    archive_deleted := up.2.1 }

/-! ## Argument-assembly lemmas -/

/-- The source's accumulation loop equals the filter-then-flatten view of
the file flags, for any starting accumulator. -/
theorem foldl_file_args (fs : String → Bool) (files : List String)
    (acc : List String) :
    files.foldl (fun acc p => if fs p then acc ++ ["-f", p] else acc) acc
      = acc ++ (files.filter fs).flatMap (fun p => ["-f", p]) := by
  induction files generalizing acc with
  | nil => simp
  | cons p rest ih =>
    by_cases h : fs p
    · simp [List.foldl_cons, h, ih, List.filter_cons]
    · simp [List.foldl_cons, h, ih, List.filter_cons]

theorem compose_file_args_eq (fs : String → Bool) (files : List String) :
    compose_file_args fs files
      = (files.filter fs).flatMap (fun p => ["-f", p]) := by
  simpa using foldl_file_args fs files []

theorem run_job_file_args_eq (fs : String → Bool) (r : ComposeJobRunner) :
    run_job_file_args fs r
      = ((r.docker_compose_job_files.map (fun p => pathjoin r.root [p])).filter
          fs).flatMap (fun p => ["-f", p]) := by
  unfold run_job_file_args
  rw [← List.foldl_map (fun p => pathjoin r.root [p])
    (fun acc p => if fs p then acc ++ ["-f", p] else acc)]
  simpa using
    foldl_file_args fs (r.docker_compose_job_files.map (fun p => pathjoin r.root [p])) []

/-! ## Claim theorems -/

/-- C1: docker_compose delivers to the external invoker exactly the vector
made of a -f flag and path for each existing file of docker_compose_files
in list order, then the project-name flag and the runner's project name,
then the caller's command tokens, and returns the exit code of that
delegated invocation. -/
theorem docker_compose_spec (invoker : List String → Int) (fs : String → Bool)
    (r : ComposeJobRunner) (command : List String) :
    docker_compose invoker fs r command
      = invoker ((r.docker_compose_files.filter fs).flatMap (fun p => ["-f", p])
          ++ ["--project-name", r.project_name] ++ command) := by
  unfold docker_compose docker_compose_args
  rw [compose_file_args_eq]

/-- C9: restart with services [openedx] under RUN_LMS true and RUN_CMS
false hands exactly the tokens restart, lms, lms-worker to
docker_compose. -/
theorem restart_openedx_lms_only :
    restart_command { RUN_LMS := true, RUN_CMS := false } ["openedx"]
      = ["restart", "lms", "lms-worker"] := by
  decide

/-- C10: whenever the token all appears in the services list, every other
service name is ignored and the bare restart command is handed to
docker_compose. -/
theorem restart_all_ignores_services (config : Config) (services : List String)
    (h : "all" ∈ services) :
    restart_command config services = ["restart"] := by
  unfold restart_command
  simp [h]

/-- Witness for C10 at a concrete input. -/
theorem restart_all_ignores_services_witness :
    restart_command { RUN_LMS := true } ["lms", "all", "cms"] = ["restart"] :=
  restart_all_ignores_services { RUN_LMS := true } ["lms", "all", "cms"]
    (by decide)

/-- C2: every token of the assembled file-set argument lists, for both
docker_compose and run_job, is either the -f flag itself or a path that
exists on the filesystem passed at the moment of the call; the filesystem
is consulted afresh at each call, never at runner construction. -/
theorem file_args_only_existing (fs : String → Bool) (r : ComposeJobRunner) :
    (∀ p ∈ compose_file_args fs r.docker_compose_files, p = "-f" ∨ fs p = true) ∧
    (∀ p ∈ run_job_file_args fs r, p = "-f" ∨ fs p = true) := by
  constructor
  · intro p hp
    rw [compose_file_args_eq] at hp
    simp only [List.mem_flatMap, List.mem_filter, List.mem_cons,
      List.not_mem_nil, or_false] at hp
    obtain ⟨q, ⟨_, hq⟩, hpq⟩ := hp
    rcases hpq with h | h
    · exact Or.inl h
    · exact Or.inr (h ▸ hq)
  · intro p hp
    rw [run_job_file_args_eq] at hp
    simp only [List.mem_flatMap, List.mem_filter, List.mem_cons,
      List.not_mem_nil, or_false] at hp
    obtain ⟨q, ⟨_, hq⟩, hpq⟩ := hp
    rcases hpq with h | h
    · exact Or.inl h
    · exact Or.inr (h ▸ hq)

/-- Witness for C2 at a concrete input: a runner whose file lists contain
one existing and one missing file. -/
theorem file_args_only_existing_witness :
    ("/a" ∈ compose_file_args (fun p => p == "/a")
        { root := "/r", project_name := "tutor",
          docker_compose_files := ["/a", "/b"],
          docker_compose_job_files := [] : ComposeJobRunner }.docker_compose_files
      ∧ ("/a" = "-f" ∨ ("/a" == "/a") = true)) := by
  refine ⟨by decide, ?_⟩
  exact (file_args_only_existing (fun p => p == "/a")
    { root := "/r", project_name := "tutor",
      docker_compose_files := ["/a", "/b"],
      docker_compose_job_files := [] }).1 "/a" (by decide)

/-- Helper: joining a relative segment appends it with a slash. -/
theorem os_path_join_rel (a b : String) (h : b.data.head? ≠ some '/') :
    os_path_join a b = a ++ "/" ++ b := by
  simp [os_path_join, h]

/-- Counterexample to C3 at a concrete input: the development profile's
service file set is not ordered local, local override, dev, dev override. -/
theorem dev_file_order_counterexample :
    (DevJobRunner "/r" { DEV_PROJECT_NAME := "p" }).docker_compose_files
      ≠ [ pathjoin "/r" ["local", "docker-compose.yml"],
          pathjoin "/r" ["local", "docker-compose.override.yml"],
          pathjoin "/r" ["dev", "docker-compose.yml"],
          pathjoin "/r" ["dev", "docker-compose.override.yml"] ] := by
  decide

/-- C3 amended: for the development profile, both file sets are ordered
foundational (local) base file, then the profile's own (dev) base file,
then the foundational override, then the profile's own override, each
resolved under the environment root. -/
theorem dev_file_sets_order (root : String) (config : Config) :
    (DevJobRunner root config).docker_compose_files
      = [ root ++ "/" ++ "env" ++ "/" ++ "local" ++ "/" ++ "docker-compose.yml",
          root ++ "/" ++ "env" ++ "/" ++ "dev" ++ "/" ++ "docker-compose.yml",
          root ++ "/" ++ "env" ++ "/" ++ "local" ++ "/" ++ "docker-compose.override.yml",
          root ++ "/" ++ "env" ++ "/" ++ "dev" ++ "/" ++ "docker-compose.override.yml" ]
    ∧ (DevJobRunner root config).docker_compose_job_files
      = [ root ++ "/" ++ "env" ++ "/" ++ "local" ++ "/" ++ "docker-compose.jobs.yml",
          root ++ "/" ++ "env" ++ "/" ++ "dev" ++ "/" ++ "docker-compose.jobs.yml",
          root ++ "/" ++ "env" ++ "/" ++ "local" ++ "/" ++ "docker-compose.jobs.override.yml",
          root ++ "/" ++ "env" ++ "/" ++ "dev" ++ "/" ++ "docker-compose.jobs.override.yml" ] := by
  constructor <;>
    simp only [DevJobRunner, pathjoin, base_dir, List.foldl_cons, List.foldl_nil,
      os_path_join_rel _ "env" (by decide),
      os_path_join_rel _ "local" (by decide),
      os_path_join_rel _ "dev" (by decide),
      os_path_join_rel _ "docker-compose.yml" (by decide),
      os_path_join_rel _ "docker-compose.override.yml" (by decide),
      os_path_join_rel _ "docker-compose.jobs.yml" (by decide),
      os_path_join_rel _ "docker-compose.jobs.override.yml" (by decide)]

/-- Counterexample to C4 at a concrete input: the invocation delivered to
the external tool by run_job is not the bare job vector; it carries the
project-name prefix (and any service-file flags) in front. -/
theorem run_job_invocation_counterexample :
    run_job_invocation (fun _ => false) true
      { root := "/r", project_name := "tutor_dev",
        docker_compose_files := [], docker_compose_job_files := [] }
      "lms" "echo hi"
      ≠ ["run", "--rm", "lms-job", "sh", "-e", "-c", "echo hi"] := by
  decide

/-- C4 amended: run_job builds the vector of a -f flag and path for each
existing file of the job file set, then run, rm, then -T exactly when no
interactive terminal is attached, then the job service name and the
wrapped shell command; it hands this vector to docker_compose, so the
external tool receives it prefixed by the service-file flags and the
project name, and run_job returns the exit code of that invocation. -/
theorem run_job_spec (invoker : List String → Int) (fs : String → Bool)
    (tty : Bool) (r : ComposeJobRunner) (service command : String) :
    run_job invoker fs tty r service command
      = invoker ((r.docker_compose_files.filter fs).flatMap (fun p => ["-f", p])
          ++ ["--project-name", r.project_name]
          ++ ((r.docker_compose_job_files.map (fun p => pathjoin r.root [p])).filter
              fs).flatMap (fun p => ["-f", p])
          ++ ["run", "--rm"]
          ++ (if tty then [] else ["-T"])
          ++ [service ++ "-job", "sh", "-e", "-c", command]) := by
  unfold run_job docker_compose docker_compose_args run_job_command
  rw [compose_file_args_eq, run_job_file_args_eq]
  cases tty <;> simp

/-- Helper for C5: if some volume in the list is bare (no separator) and
its resolved host path does not exist, the volume loop fails with the
missing-bind-mount error naming the bindmount remediation command. -/
theorem dc_volume_args_missing (fs : String → Bool) (root : String) :
    ∀ vols : List String,
      (∃ v ∈ vols, v.data.contains ':' = false
          ∧ fs (bindmounts_get_path root v) = false) →
      ∃ host, dc_volume_args fs root vols
        = .error (.missingBindMount host "bindmount") := by
  intro vols
  induction vols with
  | nil => intro h; simp at h
  | cons v rest ih =>
    intro h
    by_cases hc : v.data.contains ':'
    · have hrest : ∃ w ∈ rest, w.data.contains ':' = false
          ∧ fs (bindmounts_get_path root w) = false := by
        obtain ⟨w, hw, hwc, hwf⟩ := h
        rcases List.mem_cons.mp hw with rfl | hw2
        · rw [hc] at hwc; exact absurd hwc (by simp)
        · exact ⟨w, hw2, hwc, hwf⟩
      obtain ⟨host, herr⟩ := ih hrest
      refine ⟨host, ?_⟩
      simp only [dc_volume_args]
      rw [if_pos hc, herr]
      rfl
    · by_cases hf : fs (bindmounts_get_path root v)
      · have hrest : ∃ w ∈ rest, w.data.contains ':' = false
            ∧ fs (bindmounts_get_path root w) = false := by
          obtain ⟨w, hw, hwc, hwf⟩ := h
          rcases List.mem_cons.mp hw with rfl | hw2
          · rw [hf] at hwf; exact absurd hwf (by simp)
          · exact ⟨w, hw2, hwc, hwf⟩
        obtain ⟨host, herr⟩ := ih hrest
        refine ⟨host, ?_⟩
        simp only [dc_volume_args]
        rw [if_neg hc, if_pos hf, herr]
        rfl
      · refine ⟨bindmounts_get_path root v, ?_⟩
        simp only [dc_volume_args]
        rw [if_neg hc, if_neg hf]

/-- C5: when the raw argument list contains a bare volume token (no
host:container separator) whose resolved host directory does not exist,
dc_command fails with the missing-bind-mount error naming the bindmount
remediation command, and no invocation of the external tool is produced
(the result is an error, not an argument vector). -/
theorem dc_command_missing_bind_mount (fs : String → Bool) (root : String)
    (r : ComposeJobRunner) (command : String) (args : List String)
    (h : ∃ v ∈ (parse_volumes args).1, v.data.contains ':' = false
        ∧ fs (bindmounts_get_path root v) = false) :
    ∃ host, dc_command fs root r command args
      = Except.error (.missingBindMount host "bindmount") := by
  obtain ⟨host, herr⟩ := dc_volume_args_missing fs root (parse_volumes args).1 h
  exact ⟨host, by simp [dc_command, herr, Except.map]⟩

/-- Witness for C5 at a concrete input: a volume flag naming a bind mount
that does not exist on an empty filesystem. -/
theorem dc_command_missing_bind_mount_witness :
    (∃ v ∈ (parse_volumes ["--volume", "openedx", "logs"]).1,
        v.data.contains ':' = false
          ∧ (fun _ : String => false) (bindmounts_get_path "/r" v) = false)
    ∧ ∃ host, dc_command (fun _ => false) "/r"
        { root := "/r", project_name := "tutor", docker_compose_files := [],
          docker_compose_job_files := [] } "run" ["--volume", "openedx", "logs"]
        = Except.error (.missingBindMount host "bindmount") := by
  refine ⟨by decide, ?_⟩
  exact dc_command_missing_bind_mount (fun _ => false) "/r"
    { root := "/r", project_name := "tutor", docker_compose_files := [],
      docker_compose_job_files := [] } "run" ["--volume", "openedx", "logs"]
    (by decide)

/-! ## Basename and backup lemmas -/

/-- takeWhile ignores everything from the first failing element on. -/
theorem takeWhile_append_cons_of_neg {α : Type} (p : α → Bool) (a : α)
    (l l2 : List α) (h : p a = false) :
    (l ++ a :: l2).takeWhile p = l.takeWhile p := by
  induction l with
  | nil => simp [List.takeWhile_cons, h]
  | cons x xs ih =>
    by_cases hx : p x <;> simp [List.takeWhile_cons, hx, ih]

/-- The suffix after a failing element determines the right-to-left
takeWhile. -/
theorem rtakeWhile_append_cons {α : Type} (p : α → Bool) (a : α)
    (l l2 : List α) (h : p a = false) :
    (l ++ a :: l2).rtakeWhile p = l2.rtakeWhile p := by
  unfold List.rtakeWhile
  rw [List.reverse_append, List.reverse_cons, List.append_assoc,
    List.singleton_append, takeWhile_append_cons_of_neg p a _ _ h]

/-- Characterization of the basename: whenever a path decomposes as
anything, a slash, then a slash-free tail, the basename is that tail. -/
theorem os_path_basename_eq (s t : String) (l : List Char)
    (hs : s.data = l ++ '/' :: t.data) (ht : '/' ∉ t.data) :
    os_path_basename s = t := by
  unfold os_path_basename
  rw [hs, rtakeWhile_append_cons _ '/' _ _ (by decide)]
  have : t.data.rtakeWhile (fun c => c != '/') = t.data :=
    List.rtakeWhile_eq_self_iff.mpr (fun x hx => by
      rcases eq_or_ne x '/' with rfl | hne
      · exact absurd hx ht
      · simp [hne])
  rw [this]

/-- A slash-free string is its own basename. -/
theorem os_path_basename_of_no_slash (t : String) (ht : '/' ∉ t.data) :
    os_path_basename t = t := by
  unfold os_path_basename
  have : t.data.rtakeWhile (fun c => c != '/') = t.data :=
    List.rtakeWhile_eq_self_iff.mpr (fun x hx => by
      rcases eq_or_ne x '/' with rfl | hne
      · exact absurd hx ht
      · simp [hne])
  rw [this]

/-- The file name, archive entries, invocations and export logs of the
backup outcome do not depend on the upload or cleanup branches taken. -/
theorem backup_stable_fields (fs : String → Bool) (r : ComposeJobRunner)
    (config : Config) (root now : String) (env : BackupEnv) :
    (backup fs r config root now env).file_name = backup_file_name config now
    ∧ (backup fs r config root now env).archive_entries
        = backup_archive_entries root now
    ∧ (backup fs r config root now env).invocations
        = [docker_compose_args fs r (backup_mongodb_command now),
           docker_compose_args fs r (backup_mysql_command config now)]
    ∧ (backup fs r config root now env).exit_codes
        = [env.invoker (docker_compose_args fs r (backup_mongodb_command now)),
           env.invoker (docker_compose_args fs r (backup_mysql_command config now))]
    ∧ "Exported mongo databases successfully" ∈ (backup fs r config root now env).logs
    ∧ "Exported mysql databases successfully" ∈ (backup fs r config root now env).logs
    ∧ ("Created backup file " ++ backup_file_name config now ++ " successfully")
        ∈ (backup fs r config root now env).logs := by
  unfold backup
  simp

/-- Appending strings concatenates their character data. -/
theorem string_data_append (a b : String) : (a ++ b).data = a.data ++ b.data := rfl

/-- A string free of slashes appended to another stays free of slashes. -/
theorem no_slash_append (a b : String) (ha : '/' ∉ a.data) (hb : '/' ∉ b.data) :
    '/' ∉ (a ++ b).data := by
  show '/' ∉ a.data ++ b.data
  simp [List.mem_append, ha, hb]

/-- A string starting with the dump prefix never equals a literal whose
first character is not d. -/
theorem dump_prefix_ne (now t lit : String) (hlit : lit.data.head? ≠ some 'd') :
    "dump_" ++ now ++ t ≠ lit := by
  intro hEq
  apply hlit
  rw [← hEq]
  rfl

/-- The two dump entry names differ: their suffixes have different
lengths. -/
theorem dump_mongodb_ne_sql (now : String) :
    ("dump_" ++ now ++ ".mongodb" : String) ≠ "dump_" ++ now ++ ".sql" := by
  intro hEq
  have h2 := congrArg (fun s : String => s.data.length) hEq
  simp only [string_data_append, List.length_append] at h2
  rw [show ".mongodb".data.length = 8 from rfl,
    show ".sql".data.length = 4 from rfl] at h2
  omega

/-- A single relative part is joined under the data directory with a
slash separator. -/
theorem data_path_single (root x : String) (c : Char)
    (hx : x.data.head? = some c) (hc : c ≠ '/') :
    data_path root [x] = os_path_join root "data" ++ "/" ++ x := by
  show os_path_join (os_path_join root "data") x = _
  generalize os_path_join root "data" = A
  unfold os_path_join
  rw [hx]
  simp [hc]

/-- The top-level entries of the backup archive are exactly the base
names of the six source items. -/
theorem backup_archive_entries_eq (root now : String) (h : '/' ∉ now.data) :
    backup_archive_entries root now
      = ["dump_" ++ now ++ ".mongodb", "dump_" ++ now ++ ".sql",
         "cms", "lms", "openedx-media", "config.yml"] := by
  have hm_ns : '/' ∉ ("dump_" ++ now ++ ".mongodb" : String).data :=
    no_slash_append _ _ (no_slash_append _ _ (by decide) h) (by decide)
  have hs_ns : '/' ∉ ("dump_" ++ now ++ ".sql" : String).data :=
    no_slash_append _ _ (no_slash_append _ _ (by decide) h) (by decide)
  have h1 : os_path_basename (data_path root ["mongodb/dump_" ++ now ++ ".mongodb"])
      = "dump_" ++ now ++ ".mongodb" := by
    rw [data_path_single root ("mongodb/dump_" ++ now ++ ".mongodb") 'm' rfl (by decide)]
    apply os_path_basename_eq _ _ ((os_path_join root "data").data ++ '/' :: "mongodb".data)
    · simp only [string_data_append,
        show ("/" : String).data = ['/'] from rfl,
        show ("mongodb/dump_" : String).data = "mongodb".data ++ '/' :: "dump_".data from rfl]
      simp [List.append_assoc]
    · exact hm_ns
  have h2 : os_path_basename (data_path root ["mysql/dump_" ++ now ++ ".sql"])
      = "dump_" ++ now ++ ".sql" := by
    rw [data_path_single root ("mysql/dump_" ++ now ++ ".sql") 'm' rfl (by decide)]
    apply os_path_basename_eq _ _ ((os_path_join root "data").data ++ '/' :: "mysql".data)
    · simp only [string_data_append,
        show ("/" : String).data = ['/'] from rfl,
        show ("mysql/dump_" : String).data = "mysql".data ++ '/' :: "dump_".data from rfl]
      simp [List.append_assoc]
    · exact hs_ns
  have h3 : os_path_basename (data_path root ["cms"]) = "cms" := by
    rw [data_path_single root "cms" 'c' rfl (by decide)]
    apply os_path_basename_eq _ _ (os_path_join root "data").data
    · simp only [string_data_append, show ("/" : String).data = ['/'] from rfl]
      simp
    · decide
  have h4 : os_path_basename (data_path root ["lms"]) = "lms" := by
    rw [data_path_single root "lms" 'l' rfl (by decide)]
    apply os_path_basename_eq _ _ (os_path_join root "data").data
    · simp only [string_data_append, show ("/" : String).data = ['/'] from rfl]
      simp
    · decide
  have h5 : os_path_basename (data_path root ["openedx-media"]) = "openedx-media" := by
    rw [data_path_single root "openedx-media" 'o' rfl (by decide)]
    apply os_path_basename_eq _ _ (os_path_join root "data").data
    · simp only [string_data_append, show ("/" : String).data = ['/'] from rfl]
      simp
    · decide
  have h6 : os_path_basename (root_dir root ++ "/config.yml") = "config.yml" := by
    apply os_path_basename_eq _ _ root.data
    · rfl
    · decide
  unfold backup_archive_entries backup_dirFiles
  simp only [List.map_cons, List.map_nil, h1, h2, h3, h4, h5, h6]

/-! ## Backup claim theorems -/

/-- Counterexample to C6 at a concrete input: both export invocations
return exit code one, yet the later stages still run (the mysql export is
delegated and the archive stage produces the archive) and both success
confirmations are emitted anyway. -/
theorem backup_export_failure_counterexample :
    (backup (fun _ => false)
        { root := "/r", project_name := "tutor", docker_compose_files := [],
          docker_compose_job_files := [] }
        { LMS_HOST := "lms.local", MYSQL_ROOT_PASSWORD := "pw" }
        "/r" "20240101_120000"
        { invoker := fun _ => 1, upload := .success }).exit_codes = [1, 1]
    ∧ "Exported mongo databases successfully"
        ∈ (backup (fun _ => false)
            { root := "/r", project_name := "tutor", docker_compose_files := [],
              docker_compose_job_files := [] }
            { LMS_HOST := "lms.local", MYSQL_ROOT_PASSWORD := "pw" }
            "/r" "20240101_120000"
            { invoker := fun _ => 1, upload := .success }).logs
    ∧ "Created backup file lms.local_20240101_120000.tar.gz successfully"
        ∈ (backup (fun _ => false)
            { root := "/r", project_name := "tutor", docker_compose_files := [],
              docker_compose_job_files := [] }
            { LMS_HOST := "lms.local", MYSQL_ROOT_PASSWORD := "pw" }
            "/r" "20240101_120000"
            { invoker := fun _ => 1, upload := .success }).logs
    ∧ (backup (fun _ => false)
        { root := "/r", project_name := "tutor", docker_compose_files := [],
          docker_compose_job_files := [] }
        { LMS_HOST := "lms.local", MYSQL_ROOT_PASSWORD := "pw" }
        "/r" "20240101_120000"
        { invoker := fun _ => 1, upload := .success }).invocations.length = 2 := by
  decide

/-- C6 amended: the backup pipeline never examines the exit codes of the
mongodb and mysql export invocations: for every environment it delegates
both exports, continues through the archive, cleanup and upload stages,
and emits each export's success confirmation unconditionally. -/
theorem backup_continues_past_export_failures (fs : String → Bool)
    (r : ComposeJobRunner) (config : Config) (root now : String)
    (env : BackupEnv) :
    (backup fs r config root now env).invocations
      = [docker_compose_args fs r (backup_mongodb_command now),
         docker_compose_args fs r (backup_mysql_command config now)]
    ∧ "Exported mongo databases successfully" ∈ (backup fs r config root now env).logs
    ∧ "Exported mysql databases successfully" ∈ (backup fs r config root now env).logs
    ∧ ("Created backup file " ++ backup_file_name config now ++ " successfully")
        ∈ (backup fs r config root now env).logs :=
  have h := backup_stable_fields fs r config root now env
  ⟨h.2.2.1, h.2.2.2.2.1, h.2.2.2.2.2.1, h.2.2.2.2.2.2⟩

/-- C7: the upload stage of the backup pipeline: when BACKUP_ENABLED is
absent or false, no upload is attempted and the local archive is
retained; when it is present and true and the upload succeeds, the local
archive is deleted; when the upload fails because the archive is missing
or the credentials are rejected, the specific cause is logged and the
local archive is left in place. -/
theorem backup_upload_stage_spec (fs : String → Bool) (r : ComposeJobRunner)
    (config : Config) (root now : String) (env : BackupEnv) :
    ((config.BACKUP_ENABLED = none ∨ config.BACKUP_ENABLED = some false) →
      (backup fs r config root now env).upload_attempted = false
        ∧ (backup fs r config root now env).archive_deleted = false)
    ∧ (config.BACKUP_ENABLED = some true → env.upload = .success →
        (backup fs r config root now env).upload_attempted = true
          ∧ (backup fs r config root now env).archive_deleted = true)
    ∧ (config.BACKUP_ENABLED = some true → env.upload = .fileNotFound →
        (backup fs r config root now env).archive_deleted = false
          ∧ ("The backup file " ++ backup_file_name config now ++ " was not found")
              ∈ (backup fs r config root now env).logs)
    ∧ (config.BACKUP_ENABLED = some true → env.upload = .noCredentials →
        (backup fs r config root now env).archive_deleted = false
          ∧ "The S3 credential is not available"
              ∈ (backup fs r config root now env).logs) := by
  refine ⟨?_, ?_, ?_, ?_⟩
  · rintro (h | h) <;> simp [backup, backup_upload, h]
  · intro h hu; simp [backup, backup_upload, h, hu]
  · intro h hu; simp [backup, backup_upload, h, hu]
  · intro h hu; simp [backup, backup_upload, h, hu]

/-- Witness for C7 at concrete inputs covering each upload scenario. -/
theorem backup_upload_stage_spec_witness :
    ((backup (fun _ => false)
        { root := "/r", project_name := "tutor", docker_compose_files := [],
          docker_compose_job_files := [] }
        { LMS_HOST := "h" } "/r" "t"
        { invoker := fun _ => 0, upload := .success }).upload_attempted = false
      ∧ (backup (fun _ => false)
          { root := "/r", project_name := "tutor", docker_compose_files := [],
            docker_compose_job_files := [] }
          { LMS_HOST := "h" } "/r" "t"
          { invoker := fun _ => 0, upload := .success }).archive_deleted = false)
    ∧ ((backup (fun _ => false)
        { root := "/r", project_name := "tutor", docker_compose_files := [],
          docker_compose_job_files := [] }
        { LMS_HOST := "h", BACKUP_ENABLED := some true } "/r" "t"
        { invoker := fun _ => 0, upload := .success }).upload_attempted = true
      ∧ (backup (fun _ => false)
          { root := "/r", project_name := "tutor", docker_compose_files := [],
            docker_compose_job_files := [] }
          { LMS_HOST := "h", BACKUP_ENABLED := some true } "/r" "t"
          { invoker := fun _ => 0, upload := .success }).archive_deleted = true)
    ∧ ((backup (fun _ => false)
        { root := "/r", project_name := "tutor", docker_compose_files := [],
          docker_compose_job_files := [] }
        { LMS_HOST := "h", BACKUP_ENABLED := some true } "/r" "t"
        { invoker := fun _ => 0, upload := .fileNotFound }).archive_deleted = false
      ∧ "The backup file h_t.tar.gz was not found"
          ∈ (backup (fun _ => false)
              { root := "/r", project_name := "tutor", docker_compose_files := [],
                docker_compose_job_files := [] }
              { LMS_HOST := "h", BACKUP_ENABLED := some true } "/r" "t"
              { invoker := fun _ => 0, upload := .fileNotFound }).logs)
    ∧ ((backup (fun _ => false)
        { root := "/r", project_name := "tutor", docker_compose_files := [],
          docker_compose_job_files := [] }
        { LMS_HOST := "h", BACKUP_ENABLED := some true } "/r" "t"
        { invoker := fun _ => 0, upload := .noCredentials }).archive_deleted = false
      ∧ "The S3 credential is not available"
          ∈ (backup (fun _ => false)
              { root := "/r", project_name := "tutor", docker_compose_files := [],
                docker_compose_job_files := [] }
              { LMS_HOST := "h", BACKUP_ENABLED := some true } "/r" "t"
              { invoker := fun _ => 0, upload := .noCredentials }).logs) := by
  refine ⟨?_, ?_, ?_, ?_⟩
  · exact (backup_upload_stage_spec (fun _ => false)
      { root := "/r", project_name := "tutor", docker_compose_files := [],
        docker_compose_job_files := [] }
      { LMS_HOST := "h" } "/r" "t"
      { invoker := fun _ => 0, upload := .success }).1 (Or.inl rfl)
  · exact (backup_upload_stage_spec (fun _ => false)
      { root := "/r", project_name := "tutor", docker_compose_files := [],
        docker_compose_job_files := [] }
      { LMS_HOST := "h", BACKUP_ENABLED := some true } "/r" "t"
      { invoker := fun _ => 0, upload := .success }).2.1 rfl rfl
  · exact (backup_upload_stage_spec (fun _ => false)
      { root := "/r", project_name := "tutor", docker_compose_files := [],
        docker_compose_job_files := [] }
      { LMS_HOST := "h", BACKUP_ENABLED := some true } "/r" "t"
      { invoker := fun _ => 0, upload := .fileNotFound }).2.2.1 rfl rfl
  · exact (backup_upload_stage_spec (fun _ => false)
      { root := "/r", project_name := "tutor", docker_compose_files := [],
        docker_compose_job_files := [] }
      { LMS_HOST := "h", BACKUP_ENABLED := some true } "/r" "t"
      { invoker := fun _ => 0, upload := .noCredentials }).2.2.2 rfl rfl

/-- C8: the backup archive is named from the LMS_HOST key and the
pipeline timestamp as host underscore timestamp dot tar.gz, and its
top-level entries are exactly the base names of the six source items (the
two dumps, the three data directories and the configuration file),
pairwise distinct and free of any leaked path prefix (no slash appears in
any entry name). -/
theorem backup_archive_naming (fs : String → Bool) (r : ComposeJobRunner)
    (config : Config) (root now : String) (env : BackupEnv)
    (h : '/' ∉ now.data) :
    (backup fs r config root now env).file_name
      = config.LMS_HOST ++ "_" ++ now ++ ".tar.gz"
    ∧ (backup fs r config root now env).archive_entries
      = ["dump_" ++ now ++ ".mongodb", "dump_" ++ now ++ ".sql",
         "cms", "lms", "openedx-media", "config.yml"]
    ∧ (backup fs r config root now env).archive_entries.Nodup
    ∧ ∀ e ∈ (backup fs r config root now env).archive_entries, '/' ∉ e.data := by
  have hst := backup_stable_fields fs r config root now env
  have hent := backup_archive_entries_eq root now h
  refine ⟨hst.1, ?_, ?_, ?_⟩
  · rw [hst.2.1, hent]
  · rw [hst.2.1, hent]
    refine List.nodup_cons.mpr ⟨?_, List.nodup_cons.mpr ⟨?_, by decide⟩⟩
    · intro hmem
      simp only [List.mem_cons, List.not_mem_nil, or_false] at hmem
      rcases hmem with h1 | h1 | h1 | h1 | h1
      · exact dump_mongodb_ne_sql now h1
      · exact dump_prefix_ne now ".mongodb" "cms" (by decide) h1
      · exact dump_prefix_ne now ".mongodb" "lms" (by decide) h1
      · exact dump_prefix_ne now ".mongodb" "openedx-media" (by decide) h1
      · exact dump_prefix_ne now ".mongodb" "config.yml" (by decide) h1
    · intro hmem
      simp only [List.mem_cons, List.not_mem_nil, or_false] at hmem
      rcases hmem with h1 | h1 | h1 | h1
      · exact dump_prefix_ne now ".sql" "cms" (by decide) h1
      · exact dump_prefix_ne now ".sql" "lms" (by decide) h1
      · exact dump_prefix_ne now ".sql" "openedx-media" (by decide) h1
      · exact dump_prefix_ne now ".sql" "config.yml" (by decide) h1
  · rw [hst.2.1, hent]
    intro e he
    simp only [List.mem_cons, List.not_mem_nil, or_false] at he
    rcases he with rfl | rfl | rfl | rfl | rfl | rfl
    · exact no_slash_append _ _ (no_slash_append _ _ (by decide) h) (by decide)
    · exact no_slash_append _ _ (no_slash_append _ _ (by decide) h) (by decide)
    · decide
    · decide
    · decide
    · decide

/-- Witness for C8 at a concrete input. -/
theorem backup_archive_naming_witness :
    ('/' ∉ ("20240101_120000" : String).data)
    ∧ ((backup (fun _ => false)
        { root := "/r", project_name := "tutor", docker_compose_files := [],
          docker_compose_job_files := [] }
        { LMS_HOST := "lms.local", MYSQL_ROOT_PASSWORD := "pw" }
        "/r" "20240101_120000"
        { invoker := fun _ => 0, upload := .success }).file_name
          = "lms.local_20240101_120000.tar.gz"
      ∧ (backup (fun _ => false)
          { root := "/r", project_name := "tutor", docker_compose_files := [],
            docker_compose_job_files := [] }
          { LMS_HOST := "lms.local", MYSQL_ROOT_PASSWORD := "pw" }
          "/r" "20240101_120000"
          { invoker := fun _ => 0, upload := .success }).archive_entries
          = ["dump_20240101_120000.mongodb", "dump_20240101_120000.sql",
             "cms", "lms", "openedx-media", "config.yml"]
      ∧ (backup (fun _ => false)
          { root := "/r", project_name := "tutor", docker_compose_files := [],
            docker_compose_job_files := [] }
          { LMS_HOST := "lms.local", MYSQL_ROOT_PASSWORD := "pw" }
          "/r" "20240101_120000"
          { invoker := fun _ => 0, upload := .success }).archive_entries.Nodup
      ∧ ∀ e ∈ (backup (fun _ => false)
          { root := "/r", project_name := "tutor", docker_compose_files := [],
            docker_compose_job_files := [] }
          { LMS_HOST := "lms.local", MYSQL_ROOT_PASSWORD := "pw" }
          "/r" "20240101_120000"
          { invoker := fun _ => 0, upload := .success }).archive_entries,
          '/' ∉ e.data) :=
  ⟨by decide,
   backup_archive_naming (fun _ => false)
    { root := "/r", project_name := "tutor", docker_compose_files := [],
      docker_compose_job_files := [] }
    { LMS_HOST := "lms.local", MYSQL_ROOT_PASSWORD := "pw" }
    "/r" "20240101_120000"
    { invoker := fun _ => 0, upload := .success } (by decide)⟩

end Tutor
